import Mathlib

/-!
Verification of the polyfuse session layer (`crates/polyfuse/src/session.rs`)
and the legacy receive buffer (`src/buffer.rs`) against their
natural-language specification.

Machine integers are modelled as `Nat` with explicit `% 2^w` at the points
where the Rust code performs wrapping arithmetic on `u16`/`u32` values.
The asynchronous reads from the kernel channel are modelled as a list of
read outcomes consumed in order.
-/

namespace Polyfuse

/-! ## Kernel ABI constants

The `polyfuse-kernel` crate is not part of the sources under verification;
the constants below are modelled from the spec (§6.1, §6.3, glossary) and
mirror the Linux FUSE ABI (`linux/fuse.h`) that this crate re-exports. -/

/-- Modelled from the spec: wire value of the `FUSE_INIT` opcode in the
Linux FUSE ABI (the `polyfuse-kernel` crate is not under `src/`). -/
def FUSE_INIT : Nat := 26

/-- Modelled from the spec: the library's supported protocol major version
(`kernel::FUSE_KERNEL_VERSION`); the spec fixes "our supported major (7)". -/
def FUSE_KERNEL_VERSION : Nat := 7

/-- Modelled from the spec: the library's supported protocol minor version
(`kernel::FUSE_KERNEL_MINOR_VERSION`); spec scenario 1 (kernel 7.31 is
answered with minor 31) pins it to 31. -/
def FUSE_KERNEL_MINOR_VERSION : Nat := 31

/-- Modelled from the spec: FUSE capability bits (Linux FUSE ABI bit values,
re-exported by `polyfuse-kernel`). -/
def FUSE_ASYNC_READ : Nat := 1

/-- Modelled from the spec: `FUSE_POSIX_LOCKS` capability bit. -/
def FUSE_POSIX_LOCKS : Nat := 2

/-- Modelled from the spec: `FUSE_ATOMIC_O_TRUNC` capability bit. -/
def FUSE_ATOMIC_O_TRUNC : Nat := 8

/-- Modelled from the spec: `FUSE_EXPORT_SUPPORT` capability bit. -/
def FUSE_EXPORT_SUPPORT : Nat := 16

/-- Modelled from the spec: `FUSE_BIG_WRITES` capability bit. -/
def FUSE_BIG_WRITES : Nat := 32

/-- Modelled from the spec: `FUSE_DONT_MASK` capability bit. -/
def FUSE_DONT_MASK : Nat := 64

/-- Modelled from the spec: `FUSE_FLOCK_LOCKS` capability bit. -/
def FUSE_FLOCK_LOCKS : Nat := 1024

/-- Modelled from the spec: `FUSE_AUTO_INVAL_DATA` capability bit. -/
def FUSE_AUTO_INVAL_DATA : Nat := 4096

/-- Modelled from the spec: `FUSE_DO_READDIRPLUS` capability bit. -/
def FUSE_DO_READDIRPLUS : Nat := 8192

/-- Modelled from the spec: `FUSE_READDIRPLUS_AUTO` capability bit. -/
def FUSE_READDIRPLUS_AUTO : Nat := 16384

/-- Modelled from the spec: `FUSE_ASYNC_DIO` capability bit. -/
def FUSE_ASYNC_DIO : Nat := 32768

/-- Modelled from the spec: `FUSE_WRITEBACK_CACHE` capability bit. -/
def FUSE_WRITEBACK_CACHE : Nat := 65536

/-- Modelled from the spec: `FUSE_PARALLEL_DIROPS` capability bit. -/
def FUSE_PARALLEL_DIROPS : Nat := 262144

/-- Modelled from the spec: `FUSE_HANDLE_KILLPRIV` capability bit. -/
def FUSE_HANDLE_KILLPRIV : Nat := 524288

/-- Modelled from the spec: `FUSE_POSIX_ACL` capability bit. -/
def FUSE_POSIX_ACL : Nat := 1048576

/-- Modelled from the spec: `FUSE_MAX_PAGES` capability bit (bit 22). -/
def FUSE_MAX_PAGES : Nat := 4194304

/-- Linux errno values used by the session layer. -/
def ENOENT : Nat := 2

/-- Errno: interrupted system call. -/
def EINTR : Nat := 4

/-- Errno: I/O error. -/
def EIO : Nat := 5

/-- Errno: no such device (the kernel has unmounted the filesystem). -/
def ENODEV : Nat := 19

/-- Errno: protocol error. -/
def EPROTO : Nat := 71

/-- Modulus of `u32` arithmetic. -/
def U32 : Nat := 4294967296

/-- Modulus of `u16` arithmetic. -/
def U16 : Nat := 65536

/-! ## Constants of `session.rs` -/

/-- Source: `const MINIMUM_SUPPORTED_MINOR_VERSION: u32 = 23;`. -/
def MINIMUM_SUPPORTED_MINOR_VERSION : Nat := 23

/-- Source: `const DEFAULT_MAX_WRITE: u32 = 16 * 1024 * 1024;`. -/
def DEFAULT_MAX_WRITE : Nat := 16 * 1024 * 1024

/-- Source: `const MAX_MAX_PAGES: usize = 256;`. -/
def MAX_MAX_PAGES : Nat := 256

/-- Source: `const BUFFER_HEADER_SIZE: usize = 0x1000;`. -/
def BUFFER_HEADER_SIZE : Nat := 4096

/-- Source: `CapabilityFlags::all().bits()` — the union of all bits declared
in the `bitflags!` block of `session.rs` (lines 122–190).  Note that
`FUSE_BIG_WRITES` and `FUSE_MAX_PAGES` are *not* declared there. -/
def capabilityFlagsAll : Nat :=
  FUSE_ASYNC_READ ||| FUSE_ATOMIC_O_TRUNC ||| FUSE_AUTO_INVAL_DATA |||
  FUSE_ASYNC_DIO ||| FUSE_PARALLEL_DIROPS ||| FUSE_HANDLE_KILLPRIV |||
  FUSE_POSIX_LOCKS ||| FUSE_FLOCK_LOCKS ||| FUSE_EXPORT_SUPPORT |||
  FUSE_DONT_MASK ||| FUSE_WRITEBACK_CACHE ||| FUSE_POSIX_ACL |||
  FUSE_DO_READDIRPLUS ||| FUSE_READDIRPLUS_AUTO

/-- Source: `impl Default for CapabilityFlags` (session.rs lines 192–202). -/
def capabilityFlagsDefault : Nat :=
  FUSE_ASYNC_READ ||| FUSE_PARALLEL_DIROPS ||| FUSE_AUTO_INVAL_DATA |||
  FUSE_HANDLE_KILLPRIV ||| FUSE_ASYNC_DIO ||| FUSE_ATOMIC_O_TRUNC

/-! ## Data model -/

/-- Source: `struct Config` (session.rs lines 204–213); all fields are
machine integers (`u32`/`u16`) held as `Nat`. -/
structure Config where
  max_readahead : Nat
  flags : Nat
  max_background : Nat
  congestion_threshold : Nat
  max_write : Nat
  time_gran : Nat
  max_pages : Nat
deriving DecidableEq

/-- Source: `impl Default for Config` (session.rs lines 215–227). -/
def Config.default : Config :=
  { max_readahead := U32 - 1
    flags := capabilityFlagsDefault
    max_background := 0
    congestion_threshold := 0
    max_write := DEFAULT_MAX_WRITE
    time_gran := 1
    max_pages := 0 }

/-- Source: `Config::congestion_threshold` (session.rs lines 270–281).
The `assert!` is modelled as `none` (panic / rejected configuration).
`self.max_background * 3` is a `u16` multiplication, hence the `% U16`. -/
def Config.set_congestion_threshold (c : Config) (threshold : Nat) : Option Config :=
  if threshold ≤ c.max_background then
    some { c with congestion_threshold :=
            if threshold = 0 then c.max_background * 3 % U16 / 4 else threshold }
  else
    none

/-- Source: `kernel::fuse_in_header` fields used by `try_init` (the full
header also carries `len`, `nodeid`, `uid`, `gid`, `pid`, `padding`). -/
structure fuse_in_header where
  len : Nat
  opcode : Nat
  unique : Nat
  nodeid : Nat
  uid : Nat
  gid : Nat
  pid : Nat
deriving DecidableEq

/-- Source: `kernel::fuse_init_in` — the kernel's INIT argument. -/
structure fuse_init_in where
  major : Nat
  minor : Nat
  max_readahead : Nat
  flags : Nat
deriving DecidableEq

/-- Source: `kernel::fuse_init_out` — the INIT reply payload, also reused
as the stored connection metadata (`ConnectionInfo`). -/
structure fuse_init_out where
  major : Nat
  minor : Nat
  max_readahead : Nat
  flags : Nat
  max_background : Nat
  congestion_threshold : Nat
  max_write : Nat
  time_gran : Nat
  max_pages : Nat
deriving DecidableEq

/-- Source: `kernel::fuse_init_out::default()` — all fields zero. -/
def fuse_init_out_default : fuse_init_out :=
  { major := 0, minor := 0, max_readahead := 0, flags := 0, max_background := 0
    congestion_threshold := 0, max_write := 0, time_gran := 0, max_pages := 0 }

/-- Source: `struct Session` (session.rs lines 295–300); the `AtomicBool`
exit flag is modelled as a `Bool`. -/
structure Session where
  conn : fuse_init_out
  bufsize : Nat
  exited : Bool
deriving DecidableEq

/-- Source: `Session::exit` (session.rs lines 316–319). -/
def Session.exit (s : Session) : Session := { s with exited := true }

/-- Source: `impl Drop for Session` (session.rs lines 302–306): dropping the
session calls `exit`. -/
def Session.drop (s : Session) : Session := s.exit

/-- The frame written back to the kernel by `try_init`: either
`write::send_reply(unique, init_out)` or `write::send_error(unique, errno)`. -/
inductive InitReply where
  | out (unique : Nat) (o : fuse_init_out)
  | error (unique : Nat) (errno : Nat)
deriving DecidableEq

/-- Modelled from the spec (§4.3, §6.1): the reply header's `error` field is
0 on a success frame and the negative errno on an error frame (`write.rs`
is not under `src/`, so the encoder is modelled from the spec's words). -/
def InitReply.error_code : InitReply → Int
  | .out _ _ => 0
  | .error _ e => -(e : Int)

/-- Source: `let readonly_flags = init_in.flags & !CapabilityFlags::all().bits();`
(session.rs line 403); `!` is the `u32` bitwise complement. -/
def readonly_flags (kernel_flags : Nat) : Nat :=
  kernel_flags &&& (U32 - 1 - capabilityFlagsAll)

/-- Source: the negotiation branch of `try_init` (session.rs lines 444–461):
the `fuse_init_out` value as it stands when `write::send_reply` is called.
`capable` is `CapabilityFlags::from_bits_truncate(init_in.flags)`, i.e. the
kernel flags masked to the recognized bits.  `max_pages` performs the `u32`
computation `(max_write - 1) / pagesize + 1` with wrapping subtraction. -/
def negotiated_out (config : Config) (pageSize : Nat) (init_in : fuse_init_in) : fuse_init_out :=
  let capable := init_in.flags &&& capabilityFlagsAll
  let flags0 := (config.flags &&& capable) ||| FUSE_BIG_WRITES
  { major := FUSE_KERNEL_VERSION
    minor := min FUSE_KERNEL_MINOR_VERSION init_in.minor
    max_readahead := min config.max_readahead init_in.max_readahead
    flags := if init_in.flags &&& FUSE_MAX_PAGES ≠ 0 then flags0 ||| FUSE_MAX_PAGES else flags0
    max_background := config.max_background
    congestion_threshold := config.congestion_threshold
    max_write := config.max_write
    time_gran := config.time_gran
    max_pages :=
      if init_in.flags &&& FUSE_MAX_PAGES ≠ 0 then
        min (((config.max_write + (U32 - 1)) % U32 / pageSize + 1) % U32) 65535
      else 0 }

/-- Source: `try_init` (session.rs lines 385–506), with the request already
decoded into its header and INIT argument.  Returns the frame written to the
kernel and the constructed session (if any).  Mirrors the source's order:
the reply is sent with `negotiated_out`, and only afterwards are the
read-only flags OR-ed into the stored connection info (line 485). -/
def try_init (config : Config) (pageSize : Nat) (header : fuse_in_header)
    (init_in : fuse_init_in) : InitReply × Option Session :=
  if header.opcode = FUSE_INIT then
    if 7 < init_in.major then
      (InitReply.out header.unique
        { fuse_init_out_default with
            major := FUSE_KERNEL_VERSION, minor := FUSE_KERNEL_MINOR_VERSION },
       none)
    else if init_in.major < 7 ∨ init_in.minor < MINIMUM_SUPPORTED_MINOR_VERSION then
      (InitReply.error header.unique EPROTO, none)
    else
      let out := negotiated_out config pageSize init_in
      let stored := { out with flags := out.flags ||| readonly_flags init_in.flags }
      (InitReply.out header.unique out,
       some { conn := stored
              bufsize := BUFFER_HEADER_SIZE + stored.max_write
              exited := false })
  else
    (InitReply.error header.unique EIO, none)

/-- Source: the loop of `init` (session.rs lines 368–382): read one frame,
attempt `try_init`, loop until a session is produced.  The incoming frames
are modelled as a list of decoded requests. -/
def init_loop (config : Config) (pageSize : Nat) :
    List (fuse_in_header × fuse_init_in) → Option Session
  | [] => none
  | (header, init_in) :: rest =>
    match try_init config pageSize header init_in with
    | (_, some s) => some s
    | (_, none) => init_loop config pageSize rest

/-! ## Accessors used to state theorems -/

/-- The `fuse_init_out` payload of the frame sent to the kernel
(`fuse_init_out_default` when an error frame was sent instead). -/
def sent_out : InitReply × Option Session → fuse_init_out
  | (InitReply.out _ o, _) => o
  | (InitReply.error _ _, _) => fuse_init_out_default

/-- The capability flags stored in the constructed session's connection
info (0 when no session was constructed). -/
def stored_flags : InitReply × Option Session → Nat
  | (_, some s) => s.conn.flags
  | (_, none) => 0

/-- The congestion threshold produced by a configuration step (0 when the
configuration was rejected). -/
def ct_of : Option Config → Nat
  | some c => c.congestion_threshold
  | none => 0

/-! ## The request loop (`Session::next_request`) -/

/-- One outcome of `conn.read(&mut buf[..]).await`: either `Ok(len)` or an
`Err` whose `raw_os_error` is the given errno. -/
inductive ReadOutcome where
  | ok (len : Nat)
  | err (errno : Nat)
deriving DecidableEq

/-- Result of one `next_request` call: a request (carrying the allocation
size of its buffer and the length set from the read), `Ok(None)`
("no more requests"), a propagated fatal error, or still awaiting a read
outcome (the modelled outcome list was exhausted). -/
inductive NextReq where
  | request (alloc : Nat) (len : Nat)
  | noMore
  | fatal (errno : Nat)
  | pending
deriving DecidableEq

/-- Source: the `loop` of `Session::next_request` (session.rs lines 338–359):
`Ok(len)` breaks with the buffer truncated to `len`; `ENODEV` returns
`Ok(None)`; `ENOENT` retries; any other error is returned. -/
def next_request_loop (bufsize : Nat) : List ReadOutcome → NextReq
  | [] => NextReq.pending
  | ReadOutcome.ok len :: _ => NextReq.request bufsize len
  | ReadOutcome.err e :: rest =>
    if e = ENODEV then NextReq.noMore
    else if e = ENOENT then next_request_loop bufsize rest
    else NextReq.fatal e

/-- Source: `Session::next_request` (session.rs lines 330–365).  The buffer
is allocated with `vec![0u8; self.bufsize]`.  The session is returned
alongside the result: the source never writes any session field in this
function (in particular it never touches the `exited` flag), so the state
passes through unchanged. -/
def Session.next_request (s : Session) (reads : List ReadOutcome) : Session × NextReq :=
  (s, next_request_loop s.bufsize reads)

/-! ## The legacy receive buffer (`src/buffer.rs`) -/

/-- Source: `const RECV_BUF_SIZE: usize = crate::MAX_WRITE_SIZE + 4096;`
with `MAX_WRITE_SIZE` left abstract is not needed by any claim; the buffer
is modelled by its length and capacity only. -/
structure Buffer where
  recv_buf_len : Nat
  capacity : Nat
deriving DecidableEq

/-- Terminal outcome of `Buffer::receive`: `Ok(false)` with a frame of the
given length, `Ok(true)` (kernel connection closed, ENODEV), or `Err`. -/
inductive RecvDone where
  | gotFrame (len : Nat)
  | closed
  | failed (errno : Nat)
deriving DecidableEq

/-- Source: the `loop` of `Buffer::receive` (buffer.rs lines 35–59),
tracking the buffer length explicitly.  `old_len` is the length saved on
entry; `cur_len` is the current length (set to the capacity before the
loop).  `Ok(count)` sets the length to `count`; `ENOENT`/`EINTR` retry;
`ENODEV` and fatal errors restore `old_len`.  An exhausted outcome list
(`none`) models a read still pending. -/
def receive_steps (old_len cur_len : Nat) : List ReadOutcome → Nat × Option RecvDone
  | [] => (cur_len, none)
  | ReadOutcome.ok count :: _ => (count, some (RecvDone.gotFrame count))
  | ReadOutcome.err e :: rest =>
    if e = ENOENT ∨ e = EINTR then receive_steps old_len cur_len rest
    else if e = ENODEV then (old_len, some RecvDone.closed)
    else (old_len, some (RecvDone.failed e))

/-- Source: `Buffer::receive` (buffer.rs lines 26–60): save `old_len`, do
`set_len(capacity)`, then run the read loop.  Returns the buffer with its
final length together with the terminal outcome (if any). -/
def Buffer.receive (b : Buffer) (reads : List ReadOutcome) : Buffer × Option RecvDone :=
  let r := receive_steps b.recv_buf_len b.capacity reads
  ({ b with recv_buf_len := r.1 }, r.2)

/-! ## Concrete inputs used by witnesses and counterexamples -/

/-- A well-formed INIT request header (opcode 26, unique 2). -/
def hdr_init : fuse_in_header := ⟨56, 26, 2, 0, 0, 0, 0⟩

/-- Spec scenario 1: kernel 7.31 advertising `FUSE_MAX_PAGES | FUSE_ASYNC_READ`
with `max_readahead = 131072`. -/
def arg_modern : fuse_init_in := ⟨7, 31, 131072, FUSE_MAX_PAGES ||| FUSE_ASYNC_READ⟩

/-- Kernel 7.31 advertising only bit 21 (`FUSE_ABORT_ERROR`), a bit the core
does not recognize. -/
def arg_abort : fuse_init_in := ⟨7, 31, 131072, 2097152⟩

/-- Kernel 7.31 advertising no capability bits. -/
def arg_flags0 : fuse_init_in := ⟨7, 31, 131072, 0⟩

/-- Spec scenario 2: a future kernel's INIT with major 8. -/
def arg_future : fuse_init_in := ⟨8, 0, 0, 0⟩

/-- Default configuration with `max_write` forced to 0 (reachable through
`Config::max_write`, whose minimum bound is commented out in the source). -/
def cfg_mw0 : Config := { Config.default with max_write := 0 }

/-- Default configuration with `max_background = 30000`. -/
def cfg_mb_big : Config := { Config.default with max_background := 30000 }

/-- Default configuration with `max_background = 8`. -/
def cfg_mb8 : Config := { Config.default with max_background := 8 }

/-- The session constructed by `try_init` from the default configuration and
the `arg_flags0` request. -/
def sess_default : Session := ⟨⟨7, 31, 131072, 32, 0, 0, 16777216, 1, 0⟩, 16781312, false⟩

/-- The session constructed by `try_init` from the default configuration and
the `arg_abort` request (stored flags carry `BIG_WRITES` plus bit 21). -/
def sess_abort : Session := ⟨⟨7, 31, 131072, 2097184, 0, 0, 16777216, 1, 0⟩, 16781312, false⟩

/-! ## Helper lemmas -/

/-- Absorption of `lor` on the left: `a ||| (a ||| b) = a ||| b`. -/
theorem lor_lor_self (a b : Nat) : a ||| (a ||| b) = a ||| b := by
  rw [← Nat.lor_assoc, Nat.or_self]

/-- Absorption of `lor` on the right: `a ||| (b ||| a) = b ||| a`. -/
theorem lor_absorb_right (a b : Nat) : a ||| (b ||| a) = b ||| a := by
  rw [Nat.lor_comm b a, ← Nat.lor_assoc, Nat.or_self]

/-- Masking a union with one operand returns that operand. -/
theorem lor_land_self (a m : Nat) : (a ||| m) &&& m = m := by
  apply Nat.eq_of_testBit_eq
  intro i
  cases ha : a.testBit i <;> cases hm : m.testBit i <;>
    simp [Nat.testBit_land, Nat.testBit_lor, ha, hm]

/-- Field computation of `negotiated_out`: the flags sent to the kernel. -/
theorem negotiated_out_flags (config : Config) (pageSize : Nat) (init_in : fuse_init_in) :
    (negotiated_out config pageSize init_in).flags =
      if init_in.flags &&& FUSE_MAX_PAGES ≠ 0 then
        ((config.flags &&& (init_in.flags &&& capabilityFlagsAll)) ||| FUSE_BIG_WRITES) |||
          FUSE_MAX_PAGES
      else (config.flags &&& (init_in.flags &&& capabilityFlagsAll)) ||| FUSE_BIG_WRITES := rfl

/-- Field computation of `negotiated_out`: the `max_pages` field. -/
theorem negotiated_out_max_pages (config : Config) (pageSize : Nat) (init_in : fuse_init_in) :
    (negotiated_out config pageSize init_in).max_pages =
      if init_in.flags &&& FUSE_MAX_PAGES ≠ 0 then
        min (((config.max_write + (U32 - 1)) % U32 / pageSize + 1) % U32) 65535
      else 0 := rfl

/-- On an accepted INIT (opcode `FUSE_INIT`, major exactly 7, minor at least
the supported minimum), `try_init` sends the negotiated reply and constructs
the session, OR-ing the read-only flags into the stored info only. -/
theorem try_init_accept (config : Config) (pageSize : Nat) (header : fuse_in_header)
    (init_in : fuse_init_in) (hop : header.opcode = FUSE_INIT) (hmaj : init_in.major = 7)
    (hmin : MINIMUM_SUPPORTED_MINOR_VERSION ≤ init_in.minor) :
    try_init config pageSize header init_in =
      (InitReply.out header.unique (negotiated_out config pageSize init_in),
       some { conn := { negotiated_out config pageSize init_in with
                flags := (negotiated_out config pageSize init_in).flags |||
                  readonly_flags init_in.flags }
              bufsize := BUFFER_HEADER_SIZE + config.max_write
              exited := false }) := by
  unfold try_init
  rw [if_pos hop, if_neg (by omega),
    if_neg (by simp only [MINIMUM_SUPPORTED_MINOR_VERSION] at hmin ⊢; omega)]
  rfl

/-- A request produced by the `next_request` read loop always carries a buffer
allocated with exactly `bufsize` bytes. -/
theorem next_request_loop_alloc (bufsize : Nat) (reads : List ReadOutcome) (alloc len : Nat)
    (h : next_request_loop bufsize reads = NextReq.request alloc len) : alloc = bufsize := by
  induction reads with
  | nil => exact NextReq.noConfusion h
  | cons r rest ih =>
    cases r with
    | ok l =>
      rw [next_request_loop] at h
      injection h with h1 _
      exact h1.symm
    | err e =>
      rw [next_request_loop] at h
      split at h
      · exact NextReq.noConfusion h
      · split at h
        · exact ih h
        · exact NextReq.noConfusion h

/-- Length discipline of the `receive` read loop: the final buffer length is
the read count on success and the saved `old` length on ENODEV or a fatal
error. -/
theorem receive_steps_len (old cur : Nat) (reads : List ReadOutcome) :
    ((receive_steps old cur reads).2 = some RecvDone.closed →
      (receive_steps old cur reads).1 = old) ∧
    (∀ e, (receive_steps old cur reads).2 = some (RecvDone.failed e) →
      (receive_steps old cur reads).1 = old) ∧
    (∀ c, (receive_steps old cur reads).2 = some (RecvDone.gotFrame c) →
      (receive_steps old cur reads).1 = c) := by
  induction reads with
  | nil => simp [receive_steps]
  | cons r rest ih =>
    cases r with
    | ok count => simp [receive_steps]
    | err e =>
      simp only [receive_steps]
      split
      · exact ih
      · split
        · simp
        · simp

/-! ## Claim theorems -/

/-- C1 (counterexample): the claim "every kernel-advertised bit outside the
recognized capability set is present unchanged in the flags of the INIT
reply frame" is false.  With the default configuration and a kernel INIT
(7.31) advertising only the unrecognized bit 21, the handshake is accepted
(a session is constructed), yet the reply frame's flags do not contain
bit 21: the source ORs the read-only flags into `init_out.flags` only after
`send_reply` has already written the frame (session.rs lines 481–485). -/
theorem C1_counterexample :
    (try_init Config.default 4096 hdr_init arg_abort).2.isSome = true ∧
    arg_abort.flags &&& 2097152 = 2097152 ∧
    2097152 &&& capabilityFlagsAll = 0 ∧
    (sent_out (try_init Config.default 4096 hdr_init arg_abort)).flags &&& 2097152 = 0 := by
  decide

/-- C1 (amended): on every accepted INIT, the flags of the reply frame sent
to the kernel are exactly the negotiated recognized bits plus `BIG_WRITES`
(plus `MAX_PAGES` when the kernel offered it); the kernel-set unrecognized
("read-only") bits are OR-ed into the stored connection-info flags only
after the reply is sent, so they appear in the stored flags but not in the
reply frame. -/
theorem C1_amended_readonly_not_echoed (config : Config) (pageSize : Nat)
    (header : fuse_in_header) (init_in : fuse_init_in)
    (hop : header.opcode = FUSE_INIT) (hmaj : init_in.major = 7)
    (hmin : MINIMUM_SUPPORTED_MINOR_VERSION ≤ init_in.minor) :
    (sent_out (try_init config pageSize header init_in)).flags =
      ((config.flags &&& init_in.flags &&& capabilityFlagsAll) ||| FUSE_BIG_WRITES) |||
        (if init_in.flags &&& FUSE_MAX_PAGES ≠ 0 then FUSE_MAX_PAGES else 0) ∧
    stored_flags (try_init config pageSize header init_in) =
      (sent_out (try_init config pageSize header init_in)).flags |||
        readonly_flags init_in.flags := by
  rw [try_init_accept config pageSize header init_in hop hmaj hmin]
  refine ⟨?_, rfl⟩
  show (negotiated_out config pageSize init_in).flags = _
  rw [negotiated_out_flags, Nat.land_assoc]
  split
  · rfl
  · rw [Nat.or_zero]

/-- C1 (amended, witness): concrete instance of the amended claim with the
default configuration and the kernel advertising only unrecognized bit 21:
the reply carries only `BIG_WRITES` (0x20) while the stored flags carry
`BIG_WRITES` plus bit 21. -/
theorem C1_amended_witness :
    (sent_out (try_init Config.default 4096 hdr_init arg_abort)).flags = 32 ∧
    stored_flags (try_init Config.default 4096 hdr_init arg_abort) = 2097184 := by
  have h := C1_amended_readonly_not_echoed Config.default 4096 hdr_init arg_abort rfl rfl
    (by decide)
  exact ⟨h.1.trans (by decide), h.2.trans (by decide)⟩

/-- C4: for every kernel INIT with major 7 and minor at least 23 and every
configuration, `try_init` sends a success reply whose `minor` is the minimum
of our supported minor and the kernel's, whose flags contain every bit set
in both `config.flags` and the kernel's advertised flags masked to the
recognized bits, plus `BIG_WRITES`, and whose `max_readahead` is the minimum
of the configured and the kernel's value. -/
theorem C4_negotiation (config : Config) (pageSize : Nat)
    (header : fuse_in_header) (init_in : fuse_init_in)
    (hop : header.opcode = FUSE_INIT) (hmaj : init_in.major = 7)
    (hmin : MINIMUM_SUPPORTED_MINOR_VERSION ≤ init_in.minor) :
    (try_init config pageSize header init_in).1 =
      InitReply.out header.unique (sent_out (try_init config pageSize header init_in)) ∧
    (sent_out (try_init config pageSize header init_in)).minor =
      min FUSE_KERNEL_MINOR_VERSION init_in.minor ∧
    (((config.flags &&& init_in.flags &&& capabilityFlagsAll) ||| FUSE_BIG_WRITES) |||
        (sent_out (try_init config pageSize header init_in)).flags) =
      (sent_out (try_init config pageSize header init_in)).flags ∧
    (sent_out (try_init config pageSize header init_in)).max_readahead =
      min config.max_readahead init_in.max_readahead := by
  rw [try_init_accept config pageSize header init_in hop hmaj hmin]
  refine ⟨rfl, rfl, ?_, rfl⟩
  show _ ||| (negotiated_out config pageSize init_in).flags =
    (negotiated_out config pageSize init_in).flags
  rw [negotiated_out_flags, Nat.land_assoc]
  split
  · rw [← Nat.lor_assoc, Nat.or_self]
  · exact Nat.or_self _

/-- C4 (witness): spec scenario 1 — default configuration, kernel INIT 7.31
with `MAX_PAGES | ASYNC_READ` and `max_readahead = 131072` yields minor 31
and `max_readahead` 131072, with the negotiated bits in the reply flags. -/
theorem C4_witness :
    (sent_out (try_init Config.default 4096 hdr_init arg_modern)).minor = 31 ∧
    (sent_out (try_init Config.default 4096 hdr_init arg_modern)).max_readahead = 131072 ∧
    ((Config.default.flags &&& arg_modern.flags &&& capabilityFlagsAll) ||| FUSE_BIG_WRITES) |||
        (sent_out (try_init Config.default 4096 hdr_init arg_modern)).flags =
      (sent_out (try_init Config.default 4096 hdr_init arg_modern)).flags := by
  have h := C4_negotiation Config.default 4096 hdr_init arg_modern rfl rfl (by decide)
  exact ⟨h.2.1.trans (by decide), h.2.2.2.trans (by decide), h.2.2.1⟩

/-- C9: for every successful INIT handshake, every capability bit set by the
kernel that is outside the recognized capability set (the "read-only
flags") is present in the session's stored connection-info flags. -/
theorem C9_readonly_bits_stored (config : Config) (pageSize : Nat)
    (header : fuse_in_header) (init_in : fuse_init_in) (s : Session)
    (h : (try_init config pageSize header init_in).2 = some s) :
    readonly_flags init_in.flags ||| s.conn.flags = s.conn.flags := by
  unfold try_init at h
  split at h
  · split at h
    · exact Option.noConfusion h
    · split at h
      · exact Option.noConfusion h
      · injection h with h
        subst h
        exact lor_absorb_right _ _
  · exact Option.noConfusion h

/-- C9 (witness): with the kernel advertising only unrecognized bit 21, the
bit is contained in the stored connection-info flags of the session that
`try_init` constructs. -/
theorem C9_witness :
    readonly_flags arg_abort.flags ||| sess_abort.conn.flags = sess_abort.conn.flags := by
  exact C9_readonly_bits_stored Config.default 4096 hdr_init arg_abort sess_abort (by decide)

/-- C2 (counterexample): the claim "on ENODEV the session's exit flag is set
and the call returns no more requests" is false on the exit-flag half.  On a
session whose exit flag is clear, a `next_request` call whose read fails
with ENODEV returns "no more requests" but leaves the exit flag clear:
the source's ENODEV arm (session.rs lines 348–351) only returns `Ok(None)`
and never calls `exit`. -/
theorem C2_counterexample :
    (Session.next_request sess_default [ReadOutcome.err ENODEV]).2 = NextReq.noMore ∧
    (Session.next_request sess_default [ReadOutcome.err ENODEV]).1.exited = false := by
  decide

/-- C2 (amended): for every call to `next_request` in which the read fails
with ENODEV, the call returns "no more requests" (None) rather than an
error, and the session state — in particular the exit flag — is left
unchanged (the exit flag is set by `Session::exit`, called on drop, not by
`next_request`). -/
theorem C2_amended_enodev (s : Session) (rest : List ReadOutcome) :
    Session.next_request s (ReadOutcome.err ENODEV :: rest) = (s, NextReq.noMore) := by
  simp [Session.next_request, next_request_loop]

/-- C3 (counterexample): the claim "a read failing with EINTR is retried" is
false for `next_request`.  With outcomes "EINTR then a 40-byte frame", the
code propagates `Err(EINTR)` as fatal instead of retrying (the EINTR errno
falls into the catch-all arm of session.rs line 356); had it retried, the
very next outcome would have produced a request. -/
theorem C3_counterexample :
    next_request_loop 16781312 [ReadOutcome.err EINTR, ReadOutcome.ok 40] =
      NextReq.fatal EINTR ∧
    next_request_loop 16781312 [ReadOutcome.ok 40] = NextReq.request 16781312 40 := by
  decide

/-- C3 (amended): in `next_request`, a read failing with ENOENT is retried;
EINTR — like every errno other than ENOENT and ENODEV — is propagated as a
fatal error.  (Only the legacy `Buffer::receive` in `src/buffer.rs` retries
EINTR as well, as the last conjunct shows.) -/
theorem C3_amended_transient_errors (bufsize : Nat) (rest : List ReadOutcome) (e : Nat)
    (h1 : e ≠ ENOENT) (h2 : e ≠ ENODEV) :
    next_request_loop bufsize (ReadOutcome.err ENOENT :: rest) =
      next_request_loop bufsize rest ∧
    next_request_loop bufsize (ReadOutcome.err e :: rest) = NextReq.fatal e ∧
    (∀ old cur, receive_steps old cur (ReadOutcome.err EINTR :: rest) =
      receive_steps old cur rest) := by
  refine ⟨?_, ?_, ?_⟩
  · rw [next_request_loop, if_neg (by decide), if_pos rfl]
  · rw [next_request_loop, if_neg h2, if_neg h1]
  · intro old cur
    rw [receive_steps, if_pos (by simp [ENOENT, EINTR])]

/-- C3 (amended, witness): ENOENT is retried, EINTR is fatal in
`next_request`, and EINTR is retried by the legacy `Buffer::receive`. -/
theorem C3_amended_witness :
    next_request_loop 8192 [ReadOutcome.err ENOENT, ReadOutcome.ok 40] =
      next_request_loop 8192 [ReadOutcome.ok 40] ∧
    next_request_loop 8192 [ReadOutcome.err EINTR] = NextReq.fatal EINTR ∧
    receive_steps 7 100 [ReadOutcome.err EINTR] = receive_steps 7 100 [] := by
  have h := C3_amended_transient_errors 8192 [ReadOutcome.ok 40] EINTR (by decide) (by decide)
  have h0 := C3_amended_transient_errors 8192 [] EINTR (by decide) (by decide)
  exact ⟨h.1, h0.2.1, h0.2.2 7 100⟩

/-- C5 (counterexample): the claim "`max_pages` equals
`min(ceil(max_write / page_size), u16::MAX)` for every accepted INIT with
the MAX_PAGES bit" is false at `max_write = 0` (reachable because
`Config::max_write` has no lower bound): the source computes
`(max_write - 1) / page_size + 1` with a wrapping `u32` subtraction
(session.rs line 458), yielding 65535 where the claimed ceiling formula
yields 0. -/
theorem C5_counterexample :
    (sent_out (try_init cfg_mw0 4096 hdr_init arg_modern)).max_pages = 65535 ∧
    min ((cfg_mw0.max_write + 4096 - 1) / 4096) 65535 = 0 ∧
    (sent_out (try_init cfg_mw0 4096 hdr_init arg_modern)).max_pages ≠
      min ((cfg_mw0.max_write + 4096 - 1) / 4096) 65535 := by
  decide

/-- C5 (amended): for every accepted INIT in which the kernel set the
MAX_PAGES bit, with a positive page size and `1 ≤ max_write < 2^32` (the
`u32` range; the default is 16 MiB), the reply sets the MAX_PAGES bit and
its `max_pages` equals `min(ceil(max_write / page_size), u16::MAX)`; at
`max_write = 0` the source's computation underflows instead (see the
counterexample). -/
theorem C5_amended_max_pages (config : Config) (pageSize : Nat)
    (header : fuse_in_header) (init_in : fuse_init_in)
    (hop : header.opcode = FUSE_INIT) (hmaj : init_in.major = 7)
    (hmin : MINIMUM_SUPPORTED_MINOR_VERSION ≤ init_in.minor)
    (hmp : init_in.flags &&& FUSE_MAX_PAGES ≠ 0) (hps : 0 < pageSize)
    (hmw1 : 1 ≤ config.max_write) (hmwU : config.max_write < U32) :
    (sent_out (try_init config pageSize header init_in)).flags &&& FUSE_MAX_PAGES =
      FUSE_MAX_PAGES ∧
    (sent_out (try_init config pageSize header init_in)).max_pages =
      min ((config.max_write + pageSize - 1) / pageSize) 65535 := by
  rw [try_init_accept config pageSize header init_in hop hmaj hmin]
  constructor
  · show (negotiated_out config pageSize init_in).flags &&& FUSE_MAX_PAGES = FUSE_MAX_PAGES
    rw [negotiated_out_flags, if_pos hmp]
    exact lor_land_self _ _
  · show (negotiated_out config pageSize init_in).max_pages = _
    rw [negotiated_out_max_pages, if_pos hmp]
    have hsub : (config.max_write + (U32 - 1)) % U32 = config.max_write - 1 := by
      simp only [U32] at hmwU ⊢
      omega
    rw [hsub]
    have hlt : (config.max_write - 1) / pageSize + 1 < U32 := by
      have := Nat.div_le_self (config.max_write - 1) pageSize
      simp only [U32] at hmwU ⊢
      omega
    rw [Nat.mod_eq_of_lt hlt]
    have hceil : config.max_write + pageSize - 1 = config.max_write - 1 + pageSize := by
      omega
    rw [hceil, Nat.add_div_right _ hps]

/-- C5 (amended, witness): spec boundary case — default configuration
(`max_write` = 16 MiB), page size 4096: the reply's `max_pages` is 4096 and
the MAX_PAGES bit is set. -/
theorem C5_witness :
    (sent_out (try_init Config.default 4096 hdr_init arg_modern)).max_pages = 4096 ∧
    (sent_out (try_init Config.default 4096 hdr_init arg_modern)).flags &&&
      FUSE_MAX_PAGES = FUSE_MAX_PAGES := by
  have h := C5_amended_max_pages Config.default 4096 hdr_init arg_modern rfl rfl
    (by decide) (by decide) (by decide) (by decide) (by decide)
  exact ⟨h.2.trans (by decide), h.1⟩

/-- C6: for every configuration and every successful INIT handshake, the
constructed session's `bufsize` equals `BUFFER_HEADER_SIZE` plus the
negotiated `max_write` (which is `config.max_write`), and every subsequent
`next_request` call allocates its buffer with exactly that size. -/
theorem C6_bufsize (config : Config) (pageSize : Nat) (header : fuse_in_header)
    (init_in : fuse_init_in) (s : Session)
    (h : (try_init config pageSize header init_in).2 = some s) :
    s.bufsize = BUFFER_HEADER_SIZE + config.max_write ∧
    ∀ reads alloc len, (Session.next_request s reads).2 = NextReq.request alloc len →
      alloc = BUFFER_HEADER_SIZE + config.max_write := by
  have hbuf : s.bufsize = BUFFER_HEADER_SIZE + config.max_write := by
    unfold try_init at h
    split at h
    · split at h
      · exact Option.noConfusion h
      · split at h
        · exact Option.noConfusion h
        · injection h with h
          subst h
          rfl
    · exact Option.noConfusion h
  refine ⟨hbuf, ?_⟩
  intro reads alloc len h2
  exact (next_request_loop_alloc s.bufsize reads alloc len h2).trans hbuf

/-- C6 (witness): spec scenario 1 — the session built from the default
configuration has `bufsize` 16781312 = 0x1000 + 16 MiB, and a successful
read through `next_request` allocated exactly that much. -/
theorem C6_witness :
    sess_default.bufsize = 16781312 ∧
    BUFFER_HEADER_SIZE + Config.default.max_write = 16781312 := by
  have h := C6_bufsize Config.default 4096 hdr_init arg_flags0 sess_default (by decide)
  exact ⟨h.1.trans (by decide),
    (h.2 [ReadOutcome.ok 56] 16781312 56 (by decide)).symm⟩

/-- C7: for every INIT request whose major version exceeds 7, `try_init`
sends a success reply (reply-header error code 0) carrying our own
`fuse_init_out` — the all-zero default with major 7 and our minor — without
constructing a session, and the `init` loop proceeds to await the next
INIT request. -/
theorem C7_future_major (config : Config) (pageSize : Nat) (header : fuse_in_header)
    (init_in : fuse_init_in) (rest : List (fuse_in_header × fuse_init_in))
    (hop : header.opcode = FUSE_INIT) (hmaj : 7 < init_in.major) :
    try_init config pageSize header init_in =
      (InitReply.out header.unique
        { fuse_init_out_default with
            major := FUSE_KERNEL_VERSION, minor := FUSE_KERNEL_MINOR_VERSION },
       none) ∧
    InitReply.error_code (try_init config pageSize header init_in).1 = 0 ∧
    init_loop config pageSize ((header, init_in) :: rest) =
      init_loop config pageSize rest := by
  have h1 : try_init config pageSize header init_in =
      (InitReply.out header.unique
        { fuse_init_out_default with
            major := FUSE_KERNEL_VERSION, minor := FUSE_KERNEL_MINOR_VERSION },
       none) := by
    unfold try_init
    rw [if_pos hop, if_pos hmaj]
  refine ⟨h1, ?_, ?_⟩
  · rw [h1]
    rfl
  · rw [init_loop, h1]

/-- C7 (witness): spec scenario 2 — a major-8 INIT is answered with our
`fuse_init_out` advertising 7.31, no session is built, and the loop moves
on to the following (modern) INIT. -/
theorem C7_witness :
    try_init Config.default 4096 hdr_init arg_future =
      (InitReply.out 2 { fuse_init_out_default with major := 7, minor := 31 }, none) ∧
    init_loop Config.default 4096 [(hdr_init, arg_future), (hdr_init, arg_modern)] =
      init_loop Config.default 4096 [(hdr_init, arg_modern)] := by
  have h := C7_future_major Config.default 4096 hdr_init arg_future
    [(hdr_init, arg_modern)] rfl (by decide)
  exact ⟨h.1.trans (by decide), h.2.2⟩

/-- C8 (counterexample): the claim "a configured threshold of 0 is derived
as `max_background × 3 / 4`" is false at `max_background = 30000`: the
source's `self.max_background * 3` is a `u16` multiplication which wraps
(session.rs line 276), producing 6116 instead of the claimed 22500. -/
theorem C8_counterexample :
    ct_of (Config.set_congestion_threshold cfg_mb_big 0) = 6116 ∧
    cfg_mb_big.max_background * 3 / 4 = 22500 ∧
    ct_of (Config.set_congestion_threshold cfg_mb_big 0) ≠
      cfg_mb_big.max_background * 3 / 4 := by
  decide

/-- C8 (amended): `Config::congestion_threshold` called with 0 derives the
threshold as `max_background * 3 % 2^16 / 4` (a wrapping `u16` multiply),
which equals `max_background × 3 / 4` whenever `max_background ≤ 21845`;
a non-zero threshold greater than `max_background` is rejected (panic) at
configuration time; and on every accepted INIT the reply's
`congestion_threshold` field carries the configured value. -/
theorem C8_amended_congestion (c : Config) (t : Nat) :
    Config.set_congestion_threshold c 0 =
      some { c with congestion_threshold := c.max_background * 3 % U16 / 4 } ∧
    (c.max_background ≤ 21845 →
      c.max_background * 3 % U16 / 4 = c.max_background * 3 / 4) ∧
    (t ≠ 0 → c.max_background < t → Config.set_congestion_threshold c t = none) ∧
    (∀ pageSize header init_in, header.opcode = FUSE_INIT → init_in.major = 7 →
      MINIMUM_SUPPORTED_MINOR_VERSION ≤ init_in.minor →
      (sent_out (try_init c pageSize header init_in)).congestion_threshold =
        c.congestion_threshold) := by
  refine ⟨?_, ?_, ?_, ?_⟩
  · unfold Config.set_congestion_threshold
    rw [if_pos (Nat.zero_le _), if_pos rfl]
  · intro hmb
    have hlt : c.max_background * 3 < U16 := by
      simp only [U16]
      omega
    rw [Nat.mod_eq_of_lt hlt]
  · intro ht hlt
    unfold Config.set_congestion_threshold
    rw [if_neg (by omega)]
  · intro pageSize header init_in hop hmaj hmin
    rw [try_init_accept c pageSize header init_in hop hmaj hmin]
    rfl

/-- C8 (amended, witness): with `max_background = 8`, a configured 0 derives
threshold 6, a configured 9 is rejected, and an accepted INIT reply carries
the configured threshold. -/
theorem C8_witness :
    Config.set_congestion_threshold cfg_mb8 0 =
      some { cfg_mb8 with congestion_threshold := 6 } ∧
    Config.set_congestion_threshold cfg_mb8 9 = none ∧
    (sent_out (try_init cfg_mb8 4096 hdr_init arg_flags0)).congestion_threshold =
      cfg_mb8.congestion_threshold := by
  have h := C8_amended_congestion cfg_mb8 9
  exact ⟨h.1.trans (by decide), h.2.2.1 (by decide) (by decide),
    h.2.2.2 4096 hdr_init arg_flags0 rfl rfl (by decide)⟩

/-- C10: for every call to `Buffer::receive`, if the read ends with ENODEV
(`Ok(true)`) or with a propagated fatal error, the receive buffer's length
is restored to exactly its value before the call; if the read succeeds, the
length is set to the number of bytes read. -/
theorem C10_receive_len (b : Buffer) (reads : List ReadOutcome) :
    ((Buffer.receive b reads).2 = some RecvDone.closed →
      (Buffer.receive b reads).1.recv_buf_len = b.recv_buf_len) ∧
    (∀ e, (Buffer.receive b reads).2 = some (RecvDone.failed e) →
      (Buffer.receive b reads).1.recv_buf_len = b.recv_buf_len) ∧
    (∀ c, (Buffer.receive b reads).2 = some (RecvDone.gotFrame c) →
      (Buffer.receive b reads).1.recv_buf_len = c) :=
  receive_steps_len b.recv_buf_len b.capacity reads

/-- C10 (witness): a buffer of length 7 keeps length 7 after an ENODEV end
and after a fatal EACCES end, and gets length 56 after a successful 56-byte
read that followed a retried EINTR. -/
theorem C10_witness :
    (Buffer.receive ⟨7, 100⟩ [ReadOutcome.err ENODEV]).1.recv_buf_len = 7 ∧
    (Buffer.receive ⟨7, 100⟩ [ReadOutcome.err EINTR, ReadOutcome.ok 56]).1.recv_buf_len = 56 ∧
    (Buffer.receive ⟨7, 100⟩ [ReadOutcome.err 13]).1.recv_buf_len = 7 := by
  exact ⟨(C10_receive_len ⟨7, 100⟩ [ReadOutcome.err ENODEV]).1 (by decide),
    (C10_receive_len ⟨7, 100⟩ [ReadOutcome.err EINTR, ReadOutcome.ok 56]).2.2 56 (by decide),
    (C10_receive_len ⟨7, 100⟩ [ReadOutcome.err 13]).2.1 13 (by decide)⟩

end Polyfuse
